import Mathlib

/-!
Shallow embedding of the `/tx/slp_prebroadcast` burn-check of
fountainhead-cash/insomnia (`src/index.ts`, lines 246-478), together with the
input-hydration conventions of `hydrateTransaction` (lines 88-139) that it
relies on.  Transaction ids and token ids are opaque, equality-compared
identifiers in the source (hex strings); they are modelled as naturals.
Token amounts are arbitrary-precision non-negative integers (BigNumber over
parsed u64 fields); they are modelled as `Nat` with exact arithmetic.
-/

namespace Insomnia

/-- Opaque transaction / token identifier (a hex string in the source; only
equality on it is ever used, so it is modelled as a natural number). -/
abbrev TxId := Nat

/-- One input of the candidate transaction: the referenced parent transaction
id (`input.prevTxId`) and the spent output index (`input.outputIndex`),
`src/index.ts` lines 251-253. -/
structure Input where
  prevTxId : TxId
  outputIndex : Nat
deriving DecidableEq

/-- The `data` payload of a parsed SLP operation as produced by `parseSLP`
and normalised by `hydrateTransaction` (lines 111-137).  `genesis` carries no
`tokenId` field (the source sets one only on resolved *parent* transactions,
line 262; on a candidate it stays `undefined`). -/
inductive SlpData where
  | genesis (mintBatonVout : Nat) (qty : Nat)
  | mint (tokenId : TxId) (mintBatonVout : Nat) (qty : Nat)
  | send (tokenId : TxId) (amounts : List Nat)
deriving DecidableEq

/-- A successfully parsed SLP payload: the `tokenType` field plus the
type-specific data, mirroring the `parseSLP` result object. -/
structure SlpParsed where
  tokenType : Nat
  data : SlpData
deriving DecidableEq

/-- The `slp` field attached by `hydrateTransaction`: either a parse failure
(`response.slp = {error: ...}`, line 133) or a parsed operation
(`response.slp = parsed`, line 131).  The error message itself is never
branched on, so it is not modelled. -/
inductive SlpResult where
  | error
  | ok (p : SlpParsed)
deriving DecidableEq

/-- A hydrated parent transaction as used by the prebroadcast handler:
its hash, its number of outputs, and its `slp` field.  The `slp` field is
`none` when the transaction has no outputs at all (`hydrateTransaction` only
sets `response.slp` when `outputs.length > 0`, line 111); reading
`.slp.error` on such a value throws in the source. -/
structure HydratedTx where
  hash : TxId
  outputsLen : Nat
  slp : Option SlpResult
deriving DecidableEq

/-- The decoded candidate transaction: its inputs (from
`new bitcore.Transaction(transactionHex)`, line 248), its output count and
the `slp` field of its own hydration (line 356). -/
structure Candidate where
  inputs : List Input
  outputsLen : Nat
  slp : Option SlpResult
deriving DecidableEq

/-- An entry of `slpTaggedInputTransactions` (lines 250-272): a parent
transaction whose SLP payload parsed, tagged with `relevantSlpOutput`, the
output index the candidate spends from it. -/
structure TaggedTx where
  hash : TxId
  outputsLen : Nat
  slp : SlpParsed
  relevantSlpOutput : Nat
deriving DecidableEq

/-- An entry of `relevantSlpInputs` (lines 326-332): token type, token id and
positive SLP value carried into the candidate by one input. -/
structure RelevantInput where
  tokenType : Nat
  tokenId : TxId
  slpValue : Nat
deriving DecidableEq

/-- The distinct rejection messages of the handler, in source order of their
`res.status(400)` sites (lines 344, 358, 366, 373, 396, 402/436, 410, 416,
423, 430, 445, 451, 457, 467). -/
inductive Reason where
  | mixedInputs
  | metadataError
  | tokenTypeMismatch
  | tokenIdMismatch
  | genesisBatonInput
  | batonNoOutput
  | mintNoBaton
  | mintInputsPositive
  | mintBatonNotSet
  | mintNoCredit
  | sendBatonInput
  | outputsExceedInputs
  | fewerBchOutputs
  | valueBurned
deriving DecidableEq

/-- The observable outcome of one `/tx/slp_prebroadcast` request:
`resolutionError` is the 400 of lines 267-270 (could not retrieve input,
identifying parent id and vout), `oracleError` the 400 of lines 285-288
(gs++ verdicts unavailable), `crash` an uncaught TypeError (the handler
never answers normally), `rejected` a conservation 400, and `accepted` the
200 of lines 474-477. -/
inductive Outcome where
  | resolutionError (txid : TxId) (vout : Nat)
  | oracleError
  | crash
  | rejected (r : Reason)
  | accepted
deriving DecidableEq

/-- Whether resolving one input fails: the electrum fetch / hydration throws
(modelled as the oracle returning `none`), or the parent has no `slp` field
at all so that `typeof itxd.slp.error` throws inside the same `try` block
(lines 255-271). -/
def resolutionFails (fetch : TxId → Option HydratedTx) (i : Input) : Bool :=
  match fetch i.prevTxId with
  | none => true
  | some h => h.slp.isNone

/-- The input-resolution loop (lines 250-272).  Returns the list of parent
ids passed to `blockchainTransactionGet`, in call order (the loop issues one
fetch per input, stopping at the first failure), paired with either the
first failing input's `(prevTxId, outputIndex)` or the list of SLP-tagged
parents in input order (parents whose SLP payload did not parse are skipped,
line 259). -/
def resolveAux (fetch : TxId → Option HydratedTx) :
    List Input → List TxId × Except (TxId × Nat) (List TaggedTx)
  | [] => ([], Except.ok [])
  | i :: is =>
    match fetch i.prevTxId with
    | none => ([i.prevTxId], Except.error (i.prevTxId, i.outputIndex))
    | some h =>
      match h.slp with
      | none => ([i.prevTxId], Except.error (i.prevTxId, i.outputIndex))
      | some SlpResult.error =>
        let r := resolveAux fetch is
        (i.prevTxId :: r.1, r.2)
      | some (SlpResult.ok p) =>
        let r := resolveAux fetch is
        (i.prevTxId :: r.1,
         r.2.map (fun l => ⟨h.hash, h.outputsLen, p, i.outputIndex⟩ :: l))

/-- The sequence of parent ids actually fetched by the resolution loop. -/
def resolveLog (fetch : TxId → Option HydratedTx) (is : List Input) : List TxId :=
  (resolveAux fetch is).1

/-- The resolution result: error on the first failing input, otherwise the
`slpTaggedInputTransactions` list. -/
def resolveInputs (fetch : TxId → Option HydratedTx) (is : List Input) :
    Except (TxId × Nat) (List TaggedTx) :=
  (resolveAux fetch is).2

/-- The gs++ verdict aggregation (lines 274-298): one
`trustedValidationFor` call per tagged parent, keyed by its hash; any
unfulfilled promise aborts with the oracle error, otherwise each parent is
paired with its boolean `valid` verdict. -/
def attachVerdicts (g : TxId → Option Bool) :
    List TaggedTx → Option (List (TaggedTx × Bool))
  | [] => some []
  | t :: ts =>
    match g t.hash with
    | none => none
    | some b => (attachVerdicts g ts).map (fun l => (t, b) :: l)

/-- The token id of a tagged parent as read at line 329: for GENESIS parents
the source overwrote `slp.data.tokenId` with the parent's own hash
(line 262); MINT and SEND parents carry their parsed token id. -/
def tokenIdOf (t : TaggedTx) : TxId :=
  match t.slp.data with
  | SlpData.genesis _ _ => t.hash
  | SlpData.mint tid _ _ => tid
  | SlpData.send tid _ => tid

/-- The SEND branch of the relevant-value computation (lines 306-310 plus
the later `slpValue.gt(0)` at line 326).  The source guards only
`rvout - 1 < amounts.length`; for `rvout = 0` the JavaScript index `-1`
yields `undefined` and the subsequent `slpValue.gt(0)` throws a TypeError,
modelled as `none`. -/
def sendSlpValue (amounts : List Nat) (rvout : Nat) : Option Nat :=
  if rvout = 0 then none
  else if rvout - 1 < amounts.length then some (amounts.getD (rvout - 1) 0)
  else some 0

/-- The per-input SLP value (lines 304-314): SEND uses `amounts[rvout-1]`,
MINT and GENESIS carry `qty` on output 1 only. -/
def inputSlpValue (t : TaggedTx) : Option Nat :=
  match t.slp.data with
  | SlpData.send _ amounts => sendSlpValue amounts t.relevantSlpOutput
  | SlpData.mint _ _ qty => some (if t.relevantSlpOutput = 1 then qty else 0)
  | SlpData.genesis _ qty => some (if t.relevantSlpOutput = 1 then qty else 0)

/-- Whether one tagged parent input is a mint-baton input (lines 316-323):
the parent (MINT or GENESIS) declares `mintBatonVout > 0`, that index is
within the parent's own outputs, and the candidate spends exactly it. -/
def inputIsBaton (t : TaggedTx) : Bool :=
  match t.slp.data with
  | SlpData.send _ _ => false
  | SlpData.mint _ mbv _ =>
    decide (0 < mbv) && decide (mbv < t.outputsLen) &&
      decide (t.relevantSlpOutput = mbv)
  | SlpData.genesis mbv _ =>
    decide (0 < mbv) && decide (mbv < t.outputsLen) &&
      decide (t.relevantSlpOutput = mbv)

/-- Number of qualifying mint-baton inputs among the tagged parents (the
source only tracks the boolean `hasMintBaton`). -/
def countBatons (l : List TaggedTx) : Nat := (l.filter inputIsBaton).length

/-- The loop of lines 300-333 over the verdicted parents: builds
`relevantSlpInputs` (entries with positive value, in input order) and the
`hasMintBaton` flag.  The gs++ verdict paired with each parent is never
read.  Returns `none` when the loop throws (SEND parent spent at vout 0,
see `sendSlpValue`). -/
def computeContexts : List (TaggedTx × Bool) → Option (List RelevantInput × Bool)
  | [] => some ([], false)
  | (t, _) :: rest =>
    match inputSlpValue t with
    | none => none
    | some v =>
      match computeContexts rest with
      | none => none
      | some (rel, hb) =>
        some ((if 0 < v then ⟨t.slp.tokenType, tokenIdOf t, v⟩ :: rel else rel),
              (inputIsBaton t || hb))

/-- The homogeneity check of lines 335-342: every relevant input must share
`tokenType` and `tokenId` with the first one (the `eq(0)` escape is kept
although entries are positive by construction). -/
def allSameTypes (rel : List RelevantInput) : Bool :=
  match rel.head? with
  | none => true
  | some r0 =>
    rel.all (fun v =>
      if v.slpValue = 0 then true
      else decide (v.tokenType = r0.tokenType) && decide (v.tokenId = r0.tokenId))

/-- `totalSlpInputValue` (lines 351-354): exact sum of the relevant input
values. -/
def totalInputValue (rel : List RelevantInput) : Nat :=
  (rel.map (fun r => r.slpValue)).sum

/-- The candidate's own `slp.data.tokenId` as compared at line 373: a
GENESIS candidate has none (`undefined` in the source, since line 262 only
runs for parents); MINT and SEND candidates carry their parsed id. -/
def candTokenId (p : SlpParsed) : Option TxId :=
  match p.data with
  | SlpData.genesis _ _ => none
  | SlpData.mint tid _ _ => some tid
  | SlpData.send tid _ => some tid

/-- `totalSlpOutputValue` (lines 384-392): SEND sums its amounts, MINT and
GENESIS use `qty`. -/
def totalOutputValue (p : SlpParsed) : Nat :=
  match p.data with
  | SlpData.send _ amounts => amounts.sum
  | SlpData.mint _ _ qty => qty
  | SlpData.genesis _ qty => qty

/-- The candidate/input token identity check of lines 365-379, performed
only when `relevantSlpInputs` is non-empty, comparing against its first
entry: `tokenType` first, then `tokenId`. -/
def identityCheck (p : SlpParsed) (rel : List RelevantInput) : Option Reason :=
  match rel.head? with
  | none => none
  | some r0 =>
    if p.tokenType ≠ r0.tokenType then some Reason.tokenTypeMismatch
    else if candTokenId p ≠ some r0.tokenId then some Reason.tokenIdMismatch
    else none

/-- The per-type checks of lines 394-463, in source order.  GENESIS and MINT
share the `mint baton would be burned` message (`batonNoOutput`). -/
def typeChecks (p : SlpParsed) (outLen : Nat) (hb : Bool)
    (totalIn totalOut : Nat) : Option Reason :=
  match p.data with
  | SlpData.genesis mbv _ =>
    if hb then some Reason.genesisBatonInput
    else if outLen ≤ mbv then some Reason.batonNoOutput
    else none
  | SlpData.mint _ mbv _ =>
    if !hb then some Reason.mintNoBaton
    else if 0 < totalIn then some Reason.mintInputsPositive
    else if mbv = 0 then some Reason.mintBatonNotSet
    else if outLen < 2 then some Reason.mintNoCredit
    else if outLen ≤ mbv then some Reason.batonNoOutput
    else none
  | SlpData.send _ amounts =>
    if hb then some Reason.sendBatonInput
    else if totalIn < totalOut then some Reason.outputsExceedInputs
    else if outLen < amounts.length + 1 then some Reason.fewerBchOutputs
    else none

/-- Validation of a parsed candidate (lines 365-477): identity check, then
the per-type checks, then the final conservation check
`totalSlpOutputValue < totalSlpInputValue` (line 467) which applies to every
transaction type, then the 200 acceptance. -/
def validateCandidate (p : SlpParsed) (outLen : Nat)
    (rel : List RelevantInput) (hb : Bool) : Outcome :=
  let totalIn := totalInputValue rel
  match identityCheck p rel with
  | some r => Outcome.rejected r
  | none =>
    let totalOut := totalOutputValue p
    match typeChecks p outLen hb totalIn totalOut with
    | some r => Outcome.rejected r
    | none =>
      if totalOut < totalIn then Outcome.rejected Reason.valueBurned
      else Outcome.accepted

/-- The verdict once the input contexts are known (lines 335-477): the
homogeneity check runs before the candidate's own SLP metadata is examined;
a candidate without an `slp` field (no outputs) makes `txd.slp.error` throw
(`crash`); a metadata parse failure is rejected at line 358. -/
def verdictOf (cand : Candidate) (rel : List RelevantInput) (hb : Bool) : Outcome :=
  if allSameTypes rel then
    match cand.slp with
    | none => Outcome.crash
    | some SlpResult.error => Outcome.rejected Reason.metadataError
    | some (SlpResult.ok p) => validateCandidate p cand.outputsLen rel hb
  else Outcome.rejected Reason.mixedInputs

/-- The whole `/tx/slp_prebroadcast` handler (lines 246-478), as a function
of the decoded candidate and the two collaborator oracles: the electrum
fetch + hydration (`fetch`, `none` = throw) and the gs++ trust service
(`g`, `none` = unfulfilled promise, `some b` = verdict `valid = b`). -/
def checkBurn (cand : Candidate) (fetch : TxId → Option HydratedTx)
    (g : TxId → Option Bool) : Outcome :=
  match resolveInputs fetch cand.inputs with
  | Except.error e => Outcome.resolutionError e.1 e.2
  | Except.ok tagged =>
    match attachVerdicts g tagged with
    | none => Outcome.oracleError
    | some lv =>
      match computeContexts lv with
      | none => Outcome.crash
      | some (rel, hb) => verdictOf cand rel hb

end Insomnia

namespace Insomnia

/- ### Shared helper lemmas -/

/-- Every entry of `relevantSlpInputs` has positive value (the push at
line 326 is guarded by `slpValue.gt(0)`). -/
lemma computeContexts_pos (lv : List (TaggedTx × Bool)) (rel : List RelevantInput)
    (hb : Bool) (h : computeContexts lv = some (rel, hb)) :
    ∀ r ∈ rel, 0 < r.slpValue := by
  induction lv generalizing rel hb with
  | nil =>
    simp only [computeContexts, Option.some.injEq, Prod.mk.injEq] at h
    rw [← h.1]
    simp
  | cons tb rest ih =>
    obtain ⟨t, b⟩ := tb
    simp only [computeContexts] at h
    cases hv : inputSlpValue t with
    | none => rw [hv] at h; simp at h
    | some v =>
      rw [hv] at h
      cases hr : computeContexts rest with
      | none => rw [hr] at h; simp at h
      | some pr =>
        obtain ⟨rel0, hb0⟩ := pr
        rw [hr] at h
        simp only [Option.some.injEq, Prod.mk.injEq] at h
        intro r hrmem
        rw [← h.1] at hrmem
        by_cases hpos : 0 < v
        · rw [if_pos hpos] at hrmem
          rcases List.mem_cons.mp hrmem with heq | hmem
        -- r is the new entry or comes from the tail
          · rw [heq]; exact hpos
          · exact ih rel0 hb0 hr r hmem
        · rw [if_neg hpos] at hrmem
          exact ih rel0 hb0 hr r hrmem

/-- A zero total over positive entries forces the relevant-input list to be
empty. -/
lemma total_zero_imp_nil (rel : List RelevantInput)
    (h0 : totalInputValue rel = 0) (hpos : ∀ r ∈ rel, 0 < r.slpValue) :
    rel = [] := by
  cases rel with
  | nil => rfl
  | cons r rs =>
    exfalso
    have hr := hpos r (List.mem_cons_self r rs)
    simp [totalInputValue] at h0
    omega

/-- Once resolution, verdict aggregation and context computation succeed,
`checkBurn` reduces to the pure verdict of the candidate against the
computed contexts. -/
lemma checkBurn_pipeline (cand : Candidate) (fetch : TxId → Option HydratedTx)
    (g : TxId → Option Bool) (tagged : List TaggedTx)
    (lv : List (TaggedTx × Bool)) (rel : List RelevantInput) (hb : Bool)
    (h1 : resolveInputs fetch cand.inputs = Except.ok tagged)
    (h2 : attachVerdicts g tagged = some lv)
    (h3 : computeContexts lv = some (rel, hb)) :
    checkBurn cand fetch g = verdictOf cand rel hb := by
  simp [checkBurn, h1, h2, h3]

/- ### Claim C1 -/

/-- Claim C1 counterexample: a candidate whose first output carries no
recognizable overlay token operation (the classifier failed, `slp.error`
set) is NOT accepted unconditionally — it is rejected with the metadata
error of line 358. -/
theorem nonOverlayAcceptCex :
    checkBurn ⟨[], 1, some SlpResult.error⟩ (fun _ => none) (fun _ => none)
        = Outcome.rejected Reason.metadataError ∧
      Outcome.rejected Reason.metadataError ≠ Outcome.accepted := by
  exact ⟨rfl, by decide⟩

/-- Claim C1 (amended): a candidate whose first output carries no
recognizable overlay token operation is rejected with the metadata error,
regardless of the inputs' token contexts (for any inputs that resolve,
obtain verdicts, compute contexts without crashing, and pass the
homogeneity check). -/
theorem nonOverlayRejected (cand : Candidate) (fetch : TxId → Option HydratedTx)
    (g : TxId → Option Bool) (tagged : List TaggedTx)
    (lv : List (TaggedTx × Bool)) (rel : List RelevantInput) (hb : Bool)
    (h1 : resolveInputs fetch cand.inputs = Except.ok tagged)
    (h2 : attachVerdicts g tagged = some lv)
    (h3 : computeContexts lv = some (rel, hb))
    (h4 : allSameTypes rel = true)
    (h5 : cand.slp = some SlpResult.error) :
    checkBurn cand fetch g = Outcome.rejected Reason.metadataError := by
  rw [checkBurn_pipeline cand fetch g tagged lv rel hb h1 h2 h3]
  simp [verdictOf, h4, h5]

/-- Parent transaction used by the Claim C1 witness: a SEND of token 7. -/
def c1parent : HydratedTx := ⟨50, 2, some (SlpResult.ok ⟨1, SlpData.send 7 [5]⟩)⟩

/-- Candidate used by the Claim C1 witness: output 0 fails classification
while one input carries token value. -/
def c1cand : Candidate := ⟨[⟨50, 1⟩], 1, some SlpResult.error⟩

/-- Claim C1 witness: the amended theorem applied at a concrete candidate
with a value-carrying resolved input. -/
theorem nonOverlayRejectedW :
    checkBurn c1cand (fun _ => some c1parent) (fun _ => some true)
      = Outcome.rejected Reason.metadataError :=
  nonOverlayRejected c1cand (fun _ => some c1parent) (fun _ => some true)
    [⟨50, 2, ⟨1, SlpData.send 7 [5]⟩, 1⟩]
    [(⟨50, 2, ⟨1, SlpData.send 7 [5]⟩, 1⟩, true)]
    [⟨1, 7, 5⟩] false rfl rfl rfl rfl rfl

/- ### Claim C5 -/

/-- Claim C5: the SEND relevant-value computation is NOT total — spending
output 0 of a SEND parent makes the handler crash (`amounts[-1]` is
`undefined`, and `slpValue.gt(0)` throws), instead of yielding 0 as the
claim states; in bounds (1 ≤ vout ≤ amounts.length) it yields
`amounts[vout-1]`, and above the bound it yields 0. -/
theorem sendRelevantValueTotality (amounts : List Nat) (rvout : Nat) :
    (rvout = 0 → sendSlpValue amounts rvout = none) ∧
    (1 ≤ rvout → rvout ≤ amounts.length →
      sendSlpValue amounts rvout = some (amounts.getD (rvout - 1) 0)) ∧
    (amounts.length < rvout → sendSlpValue amounts rvout = some 0) := by
  unfold sendSlpValue
  refine ⟨fun h => by simp [h], fun h1 h2 => ?_, fun h => ?_⟩
  · rw [if_neg (by omega), if_pos (by omega)]
  · rw [if_neg (by omega : ¬rvout = 0), if_neg (by omega)]

/-- Claim C5 witness: the totality theorem evaluated at the failing input
(vout 0 of a SEND parent with `amounts = [7]`) and at the two in-range
shapes. -/
theorem sendRelevantValueTotalityW :
    sendSlpValue [7] 0 = none ∧ sendSlpValue [7] 1 = some 7 ∧
      sendSlpValue [7] 2 = some 0 :=
  ⟨(sendRelevantValueTotality [7] 0).1 rfl,
   (sendRelevantValueTotality [7] 1).2.1 (by decide) (by decide),
   (sendRelevantValueTotality [7] 2).2.2 (by decide)⟩

/- ### Claim C7 -/

/-- Parent transaction used by the Claim C7 theorems. -/
def c7tx : HydratedTx := ⟨60, 2, some (SlpResult.ok ⟨1, SlpData.send 7 [5]⟩)⟩

/-- Claim C7 counterexample: two inputs referencing the same parent id 60
cause TWO fetches of id 60, not one — parent ids are not deduplicated. -/
theorem dedupFetchCex :
    resolveLog (fun _ => some c7tx) [⟨60, 1⟩, ⟨60, 2⟩] = [60, 60] ∧
      List.count 60 (resolveLog (fun _ => some c7tx) [⟨60, 1⟩, ⟨60, 2⟩]) = 2 := by
  constructor
  · rfl
  · rfl

/-- Claim C7 (amended): the resolution loop issues exactly one fetch per
input, in input order (no deduplication of repeated parent ids), whenever
no input fails to resolve. -/
theorem fetchPerInput (fetch : TxId → Option HydratedTx) (l : List Input)
    (h : ∀ i ∈ l, resolutionFails fetch i = false) :
    resolveLog fetch l = l.map (fun i => i.prevTxId) := by
  induction l with
  | nil => rfl
  | cons i is ih =>
    have hi : resolutionFails fetch i = false := h i (List.mem_cons_self i is)
    cases hf : fetch i.prevTxId with
    | none => simp [resolutionFails, hf] at hi
    | some ht =>
      have hi2 : ht.slp.isNone = false := by
        simpa [resolutionFails, hf] using hi
      have ih2 := ih (fun j hj => h j (List.mem_cons_of_mem i hj))
      cases hs : ht.slp with
      | none => rw [hs] at hi2; simp at hi2
      | some sr =>
        cases sr with
        | error =>
          simp only [resolveLog, resolveAux, hf, hs, List.map_cons]
          rw [← ih2]
          rfl
        | ok p =>
          simp only [resolveLog, resolveAux, hf, hs, List.map_cons]
          rw [← ih2]
          rfl

/-- Claim C7 witness: the amended theorem at the concrete repeated-parent
input list. -/
theorem fetchPerInputW :
    resolveLog (fun _ => some c7tx) [⟨60, 1⟩, ⟨60, 2⟩] = [60, 60] := by
  have := fetchPerInput (fun _ => some c7tx) [⟨60, 1⟩, ⟨60, 2⟩] (by decide)
  simpa using this

/- ### Claim C8 -/

/-- A failing input makes the whole resolution fail, identifying an
offending input. -/
lemma resolve_error_of_fails (fetch : TxId → Option HydratedTx) (l : List Input)
    (h : ∃ i ∈ l, resolutionFails fetch i = true) :
    ∃ j ∈ l, resolutionFails fetch j = true ∧
      resolveInputs fetch l = Except.error (j.prevTxId, j.outputIndex) := by
  induction l with
  | nil => simp at h
  | cons i is ih =>
    cases hf : fetch i.prevTxId with
    | none =>
      refine ⟨i, List.mem_cons_self i is, ?_, ?_⟩
      · simp [resolutionFails, hf]
      · simp [resolveInputs, resolveAux, hf]
    | some ht =>
      cases hs : ht.slp with
      | none =>
        refine ⟨i, List.mem_cons_self i is, ?_, ?_⟩
        · simp [resolutionFails, hf, hs]
        · simp [resolveInputs, resolveAux, hf, hs]
      | some sr =>
        have hihead : resolutionFails fetch i = false := by
          simp [resolutionFails, hf, hs]
        have htail : ∃ i2 ∈ is, resolutionFails fetch i2 = true := by
          rcases h with ⟨i0, hmem, hfail⟩
          rcases List.mem_cons.mp hmem with heq | hmem2
          · rw [heq] at hfail; rw [hihead] at hfail; simp at hfail
          · exact ⟨i0, hmem2, hfail⟩
        obtain ⟨j, hj, hjf, herr⟩ := ih htail
        refine ⟨j, List.mem_cons_of_mem i hj, hjf, ?_⟩
        cases sr with
        | error =>
          simp only [resolveInputs, resolveAux, hf, hs]
          exact herr
        | ok p =>
          simp only [resolveInputs, resolveAux, hf, hs]
          rw [show (resolveAux fetch is).2 = resolveInputs fetch is from rfl, herr]
          rfl

/-- Claim C8: if fetching or hydrating any referenced parent fails (the
fetch oracle throws, or the parent exposes no `slp` field so the tag check
throws inside the same try-block), the whole request fails with the
input-resolution error identifying the offending parent id and vout, and no
accepted/rejected verdict is produced. -/
theorem resolutionFailureFatal (cand : Candidate)
    (fetch : TxId → Option HydratedTx) (g : TxId → Option Bool)
    (h : ∃ i ∈ cand.inputs, resolutionFails fetch i = true) :
    ∃ j ∈ cand.inputs, resolutionFails fetch j = true ∧
      checkBurn cand fetch g = Outcome.resolutionError j.prevTxId j.outputIndex := by
  obtain ⟨j, hj, hjf, herr⟩ := resolve_error_of_fails fetch cand.inputs h
  exact ⟨j, hj, hjf, by simp [checkBurn, herr]⟩

/-- Claim C8 witness: concrete candidate with one unresolvable input. -/
theorem resolutionFailureFatalW :
    ∃ j ∈ ([⟨9, 0⟩] : List Input), resolutionFails (fun _ => none) j = true ∧
      checkBurn ⟨[⟨9, 0⟩], 1, some SlpResult.error⟩ (fun _ => none) (fun _ => none)
        = Outcome.resolutionError j.prevTxId j.outputIndex :=
  resolutionFailureFatal ⟨[⟨9, 0⟩], 1, some SlpResult.error⟩ (fun _ => none)
    (fun _ => none) ⟨⟨9, 0⟩, List.mem_cons_self _ _, rfl⟩

/- ### Claim C9 -/

/-- Claim C9: `checkBurn` is deterministic — the same candidate with
pointwise identical collaborator responses (ledger fetch and trust service)
yields the same outcome. -/
theorem checkBurnDeterministic (c1 c2 : Candidate)
    (f1 f2 : TxId → Option HydratedTx) (g1 g2 : TxId → Option Bool)
    (hc : c1 = c2) (hf : ∀ s, f1 s = f2 s) (hg : ∀ s, g1 s = g2 s) :
    checkBurn c1 f1 g1 = checkBurn c2 f2 g2 := by
  subst hc
  rw [funext hf, funext hg]

/-- Claim C9 witness: the determinism theorem at a concrete run. -/
theorem checkBurnDeterministicW :
    checkBurn ⟨[], 1, some SlpResult.error⟩ (fun _ => none) (fun _ => none)
      = checkBurn ⟨[], 1, some SlpResult.error⟩ (fun _ => none) (fun _ => none) :=
  checkBurnDeterministic _ _ _ _ _ _ rfl (fun _ => rfl) (fun _ => rfl)

end Insomnia

namespace Insomnia

/- ### More shared helper lemmas -/

/-- Two trust oracles that fail on the same hashes lead the verdict
aggregation to the same shape: both fail, or both succeed with the same
underlying parents. -/
lemma attachVerdicts_congr (g1 g2 : TxId → Option Bool)
    (hg : ∀ s, (g1 s).isSome = (g2 s).isSome) (l : List TaggedTx) :
    (attachVerdicts g1 l = none ∧ attachVerdicts g2 l = none) ∨
      ∃ l1 l2, attachVerdicts g1 l = some l1 ∧ attachVerdicts g2 l = some l2 ∧
        l1.map Prod.fst = l2.map Prod.fst := by
  induction l with
  | nil => exact Or.inr ⟨[], [], rfl, rfl, rfl⟩
  | cons t ts ih =>
    cases h1 : g1 t.hash with
    | none =>
      have h2 : g2 t.hash = none := by
        have hx := hg t.hash
        rw [h1] at hx
        cases hy : g2 t.hash with
        | none => rfl
        | some b => rw [hy] at hx; simp at hx
      exact Or.inl ⟨by simp [attachVerdicts, h1], by simp [attachVerdicts, h2]⟩
    | some b1 =>
      have hx : (g2 t.hash).isSome = true := by rw [← hg]; simp [h1]
      obtain ⟨b2, h2⟩ := Option.isSome_iff_exists.mp hx
      rcases ih with ⟨ha, hb2⟩ | ⟨l1, l2, ha, hb2, hmap⟩
      · exact Or.inl ⟨by simp [attachVerdicts, h1, ha],
          by simp [attachVerdicts, h2, hb2]⟩
      · refine Or.inr ⟨(t, b1) :: l1, (t, b2) :: l2, ?_, ?_, ?_⟩
        · simp [attachVerdicts, h1, ha]
        · simp [attachVerdicts, h2, hb2]
        · simp [hmap]

/-- The context computation only reads the parent transaction of each pair,
never the paired trust verdict. -/
lemma computeContexts_congr (lv1 lv2 : List (TaggedTx × Bool))
    (h : lv1.map Prod.fst = lv2.map Prod.fst) :
    computeContexts lv1 = computeContexts lv2 := by
  induction lv1 generalizing lv2 with
  | nil =>
    cases lv2 with
    | nil => rfl
    | cons _ _ => simp at h
  | cons tb rest ih =>
    cases lv2 with
    | nil => simp at h
    | cons tb2 rest2 =>
      obtain ⟨t1, b1⟩ := tb
      obtain ⟨t2, b2⟩ := tb2
      simp only [List.map_cons, List.cons.injEq] at h
      obtain ⟨hteq, hrest⟩ := h
      subst hteq
      simp only [computeContexts]
      rw [ih rest2 hrest]

/-- A non-accepting homogeneity check forces the mixed-inputs rejection. -/
lemma verdictOf_accept_imp_allSame (cand : Candidate) (rel : List RelevantInput)
    (hb : Bool) (h : verdictOf cand rel hb = Outcome.accepted) :
    allSameTypes rel = true := by
  cases hall : allSameTypes rel with
  | true => rfl
  | false => rw [verdictOf, hall] at h; simp at h

/-- With a parsed candidate and homogeneous inputs, the outcome is the one
of `validateCandidate`. -/
lemma verdictOf_parsed (cand : Candidate) (rel : List RelevantInput) (hb : Bool)
    (p : SlpParsed) (h5 : cand.slp = some (SlpResult.ok p))
    (hall : allSameTypes rel = true) :
    verdictOf cand rel hb = validateCandidate p cand.outputsLen rel hb := by
  simp [verdictOf, hall, h5]

/-- Acceptance implies the identity check passed. -/
lemma validate_accept_imp_identity (p : SlpParsed) (outLen : Nat)
    (rel : List RelevantInput) (hb : Bool)
    (h : validateCandidate p outLen rel hb = Outcome.accepted) :
    identityCheck p rel = none := by
  cases hid : identityCheck p rel with
  | none => rfl
  | some r => rw [validateCandidate, hid] at h; simp at h

/-- A failed identity check is surfaced as its rejection. -/
lemma validate_identity_some (p : SlpParsed) (outLen : Nat)
    (rel : List RelevantInput) (hb : Bool) (r : Reason)
    (hid : identityCheck p rel = some r) :
    validateCandidate p outLen rel hb = Outcome.rejected r := by
  rw [validateCandidate, hid]

/- ### Claim C3 -/

/-- Parent transaction of the Claim C3 scenarios: a MINT of token 7 whose
baton sits at output 2 (3 outputs). -/
def c3parent : HydratedTx := ⟨21, 3, some (SlpResult.ok ⟨1, SlpData.mint 7 2 5⟩)⟩

/-- MINT candidate of the Claim C3 scenarios, reissuing the baton at
output 1 of its 2 outputs. -/
def c3cand : Candidate := ⟨[⟨21, 2⟩], 2, some (SlpResult.ok ⟨1, SlpData.mint 7 1 10⟩)⟩

/-- Claim C3 counterexample: the only input is the parent's mint baton and
the trust service answers `valid = false` for it, yet the input still
counts as a legitimate baton source — the MINT candidate is accepted, where
the claim demands the invalid-verdict input be discarded for `hasMintBaton`
(which would reject with the missing-baton error). -/
theorem invalidVerdictBatonCex :
    (fun _ : TxId => some false) c3parent.hash = some false ∧
      checkBurn c3cand (fun _ => some c3parent) (fun _ => some false)
        = Outcome.accepted :=
  ⟨rfl, rfl⟩

/-- Claim C3 (amended): the fetched trust verdicts are never consulted at
all — any two verdict oracles failing on the same hashes produce the same
outcome (neither mint-baton legitimacy nor anything else depends on the
verdict values); and inputs with non-positive relevant value are excluded
from the relevant-input list (hence from value summation) regardless of
verdict. -/
theorem verdictValuesUnused :
    (∀ (cand : Candidate) (fetch : TxId → Option HydratedTx)
        (g1 g2 : TxId → Option Bool),
      (∀ s, (g1 s).isSome = (g2 s).isSome) →
        checkBurn cand fetch g1 = checkBurn cand fetch g2) ∧
    (∀ (lv : List (TaggedTx × Bool)) (rel : List RelevantInput) (hb : Bool),
      computeContexts lv = some (rel, hb) → ∀ r ∈ rel, 0 < r.slpValue) := by
  constructor
  · intro cand fetch g1 g2 hg
    cases hres : resolveInputs fetch cand.inputs with
    | error e => simp [checkBurn, hres]
    | ok tagged =>
      rcases attachVerdicts_congr g1 g2 hg tagged with ⟨ha, hb2⟩ | ⟨l1, l2, ha, hb2, hmap⟩
      · simp [checkBurn, hres, ha, hb2]
      · simp [checkBurn, hres, ha, hb2, computeContexts_congr l1 l2 hmap]
  · exact computeContexts_pos

/-- Claim C3 witness: flipping every verdict from `true` to `false` leaves
the concrete outcome unchanged, and a concrete context list only carries
positive values. -/
theorem verdictValuesUnusedW :
    checkBurn c3cand (fun _ => some c3parent) (fun _ => some true)
        = checkBurn c3cand (fun _ => some c3parent) (fun _ => some false) ∧
      ∀ r ∈ ([⟨1, 7, 5⟩] : List RelevantInput), 0 < r.slpValue :=
  ⟨verdictValuesUnused.1 c3cand (fun _ => some c3parent) (fun _ => some true)
      (fun _ => some false) (fun _ => rfl),
    verdictValuesUnused.2 [(⟨50, 2, ⟨1, SlpData.send 7 [5]⟩, 1⟩, false)]
      [⟨1, 7, 5⟩] false rfl⟩

end Insomnia

namespace Insomnia

/- ### Claim C2 -/

/-- Acceptance condition of a parsed SEND candidate once the identity check
passed: exact value conservation (the SEND branch of lines 443-463 enforces
`out <= in`, the final check of line 467 enforces `in <= out`), enough
outputs, and no baton input. -/
lemma validate_send_accept (p : SlpParsed) (outLen : Nat)
    (rel : List RelevantInput) (hb : Bool) (tid : TxId) (amounts : List Nat)
    (h6 : p.data = SlpData.send tid amounts)
    (h7 : identityCheck p rel = none) :
    (validateCandidate p outLen rel hb = Outcome.accepted ↔
      (amounts.sum = totalInputValue rel ∧
        amounts.length + 1 ≤ outLen ∧ hb = false)) := by
  simp only [validateCandidate, h7, typeChecks, h6, totalOutputValue]
  cases hb with
  | true => simp
  | false =>
    simp only [Bool.false_eq_true, if_false, and_true]
    split_ifs with g1 g2 g3 <;> simp_all <;> omega

/-- Parent transaction of the Claim C2 counterexample: a SEND of token 7
delivering value 2 on its output 1. -/
def c2parent : HydratedTx := ⟨50, 2, some (SlpResult.ok ⟨1, SlpData.send 7 [2]⟩)⟩

/-- SEND candidate of the Claim C2 counterexample: spends the value-2 input
but only sends 1 (a partial burn). -/
def c2cand : Candidate := ⟨[⟨50, 1⟩], 2, some (SlpResult.ok ⟨1, SlpData.send 7 [1]⟩)⟩

/-- Claim C2 counterexample: for this SEND candidate all three conditions of
the claim hold — `sum(amounts) = 1 <= 2 = totalInputValue`, `2` outputs
`>= amounts.length + 1 = 2`, and no mint-baton input — yet `checkBurn`
rejects it (final no-burn check of line 467, `slp outputs less than
inputs`), so `<=` is not sufficient for acceptance. -/
theorem sendAcceptIffCex :
    resolveInputs (fun _ => some c2parent) c2cand.inputs
        = Except.ok [⟨50, 2, ⟨1, SlpData.send 7 [2]⟩, 1⟩] ∧
      computeContexts [(⟨50, 2, ⟨1, SlpData.send 7 [2]⟩, 1⟩, true)]
        = some ([⟨1, 7, 2⟩], false) ∧
      List.sum [1] ≤ totalInputValue [⟨1, 7, 2⟩] ∧
      1 + 1 ≤ c2cand.outputsLen ∧
      checkBurn c2cand (fun _ => some c2parent) (fun _ => some true)
        = Outcome.rejected Reason.valueBurned :=
  ⟨rfl, rfl, by decide, by decide, rfl⟩

/-- Claim C2 (amended): for a SEND candidate (over resolved, verdicted,
crash-free, homogeneous inputs whose identity check against the candidate
passes), `checkBurn` accepts iff `sum(amounts) = totalInputValue` (exact
conservation — the final check upgrades the claimed `<=` to `=`),
`outputs.length >= amounts.length + 1`, and no consumed input is a mint
baton. -/
theorem sendAcceptIff (cand : Candidate) (fetch : TxId → Option HydratedTx)
    (g : TxId → Option Bool) (tagged : List TaggedTx)
    (lv : List (TaggedTx × Bool)) (rel : List RelevantInput) (hb : Bool)
    (p : SlpParsed) (tid : TxId) (amounts : List Nat)
    (h1 : resolveInputs fetch cand.inputs = Except.ok tagged)
    (h2 : attachVerdicts g tagged = some lv)
    (h3 : computeContexts lv = some (rel, hb))
    (h4 : allSameTypes rel = true)
    (h5 : cand.slp = some (SlpResult.ok p))
    (h6 : p.data = SlpData.send tid amounts)
    (h7 : identityCheck p rel = none) :
    (checkBurn cand fetch g = Outcome.accepted ↔
      (amounts.sum = totalInputValue rel ∧
        amounts.length + 1 ≤ cand.outputsLen ∧ hb = false)) := by
  rw [checkBurn_pipeline cand fetch g tagged lv rel hb h1 h2 h3,
    verdictOf_parsed cand rel hb p h5 h4]
  exact validate_send_accept p cand.outputsLen rel hb tid amounts h6 h7

/-- SEND candidate of the Claim C2 witness: sends exactly the 2 units it
consumes. -/
def c2wcand : Candidate := ⟨[⟨50, 1⟩], 2, some (SlpResult.ok ⟨1, SlpData.send 7 [2]⟩)⟩

/-- Claim C2 witness: the amended iff applied at a concrete conserving SEND,
concluding acceptance. -/
theorem sendAcceptIffW :
    checkBurn c2wcand (fun _ => some c2parent) (fun _ => some true)
      = Outcome.accepted :=
  (sendAcceptIff c2wcand (fun _ => some c2parent) (fun _ => some true)
      [⟨50, 2, ⟨1, SlpData.send 7 [2]⟩, 1⟩]
      [(⟨50, 2, ⟨1, SlpData.send 7 [2]⟩, 1⟩, true)]
      [⟨1, 7, 2⟩] false ⟨1, SlpData.send 7 [2]⟩ 7 [2]
      rfl rfl rfl rfl rfl rfl rfl).mpr ⟨by decide, by decide, rfl⟩

end Insomnia

namespace Insomnia

/- ### Claim C4 -/

/-- Acceptance condition of a parsed MINT candidate: the baton flag, zero
input value, a nonzero in-bounds `mintBatonVout`, and at least two outputs
(lines 409-442; the final check of line 467 never fires since the input
value is forced to 0). -/
lemma validate_mint_accept (p : SlpParsed) (outLen : Nat)
    (rel : List RelevantInput) (hb : Bool) (tid : TxId) (mbv qty : Nat)
    (h6 : p.data = SlpData.mint tid mbv qty)
    (hpos : ∀ r ∈ rel, 0 < r.slpValue) :
    (validateCandidate p outLen rel hb = Outcome.accepted ↔
      (hb = true ∧ totalInputValue rel = 0 ∧ mbv ≠ 0 ∧
        mbv < outLen ∧ 2 ≤ outLen)) := by
  constructor
  · intro hacc
    have hid : identityCheck p rel = none :=
      validate_accept_imp_identity p outLen rel hb hacc
    simp only [validateCandidate, hid, typeChecks, h6, totalOutputValue] at hacc
    cases hb with
    | false => simp at hacc
    | true =>
      simp only [Bool.not_true, Bool.false_eq_true, if_false] at hacc
      split_ifs at hacc with g1 g2 g3 g4 <;> simp_all
  · rintro ⟨hbt, h0, hmbv, hlt, hout⟩
    subst hbt
    have hnil : rel = [] := total_zero_imp_nil rel h0 hpos
    subst hnil
    have hid : identityCheck p [] = none := rfl
    simp only [validateCandidate, hid, typeChecks, h6, totalOutputValue,
      Bool.not_true, Bool.false_eq_true, if_false]
    have htot : totalInputValue ([] : List RelevantInput) = 0 := rfl
    rw [htot]
    rw [if_neg (by omega : ¬(0:Nat) < 0), if_neg hmbv,
      if_neg (by omega : ¬outLen < 2), if_neg (by omega : ¬outLen ≤ mbv),
      if_neg (by omega : ¬qty < 0)]

/-- First baton-carrying parent of the Claim C4 counterexample. -/
def c4p1 : HydratedTx := ⟨21, 3, some (SlpResult.ok ⟨1, SlpData.mint 7 2 5⟩)⟩

/-- Second baton-carrying parent of the Claim C4 counterexample. -/
def c4p2 : HydratedTx := ⟨22, 3, some (SlpResult.ok ⟨1, SlpData.mint 7 2 5⟩)⟩

/-- Fetch oracle of the Claim C4 counterexample. -/
def c4fetch : TxId → Option HydratedTx := fun s =>
  if s = 21 then some c4p1 else if s = 22 then some c4p2 else none

/-- MINT candidate of the Claim C4 counterexample, spending BOTH parents'
baton outputs. -/
def c4cand : Candidate := ⟨[⟨21, 2⟩, ⟨22, 2⟩], 2, some (SlpResult.ok ⟨1, SlpData.mint 7 1 10⟩)⟩

/-- Claim C4 counterexample: the candidate consumes TWO qualifying
mint-baton inputs (not exactly one), and `checkBurn` still accepts — the
source only tracks the boolean `hasMintBaton` (line 301), never a count. -/
theorem mintAcceptIffCex :
    resolveInputs c4fetch c4cand.inputs
        = Except.ok [⟨21, 3, ⟨1, SlpData.mint 7 2 5⟩, 2⟩,
                     ⟨22, 3, ⟨1, SlpData.mint 7 2 5⟩, 2⟩] ∧
      countBatons [⟨21, 3, ⟨1, SlpData.mint 7 2 5⟩, 2⟩,
                   ⟨22, 3, ⟨1, SlpData.mint 7 2 5⟩, 2⟩] = 2 ∧
      checkBurn c4cand c4fetch (fun _ => some true) = Outcome.accepted :=
  ⟨rfl, rfl, rfl⟩

/-- Claim C4 (amended): for a MINT candidate over resolved, verdicted,
crash-free inputs, `checkBurn` accepts iff AT LEAST one qualifying
mint-baton input exists (`hasMintBaton`; the source cannot count batons),
`totalInputValue = 0`, `mintBatonVout` is nonzero and within the output
count, and there are at least 2 outputs. -/
theorem mintAcceptIff (cand : Candidate) (fetch : TxId → Option HydratedTx)
    (g : TxId → Option Bool) (tagged : List TaggedTx)
    (lv : List (TaggedTx × Bool)) (rel : List RelevantInput) (hb : Bool)
    (p : SlpParsed) (tid : TxId) (mbv qty : Nat)
    (h1 : resolveInputs fetch cand.inputs = Except.ok tagged)
    (h2 : attachVerdicts g tagged = some lv)
    (h3 : computeContexts lv = some (rel, hb))
    (h5 : cand.slp = some (SlpResult.ok p))
    (h6 : p.data = SlpData.mint tid mbv qty) :
    (checkBurn cand fetch g = Outcome.accepted ↔
      (hb = true ∧ totalInputValue rel = 0 ∧ mbv ≠ 0 ∧
        mbv < cand.outputsLen ∧ 2 ≤ cand.outputsLen)) := by
  rw [checkBurn_pipeline cand fetch g tagged lv rel hb h1 h2 h3]
  have hpos := computeContexts_pos lv rel hb h3
  constructor
  · intro hacc
    have hall : allSameTypes rel = true :=
      verdictOf_accept_imp_allSame cand rel hb hacc
    rw [verdictOf_parsed cand rel hb p h5 hall] at hacc
    exact (validate_mint_accept p cand.outputsLen rel hb tid mbv qty h6 hpos).mp hacc
  · intro hcond
    have hnil : rel = [] := total_zero_imp_nil rel hcond.2.1 hpos
    have hall : allSameTypes rel = true := by rw [hnil]; rfl
    rw [verdictOf_parsed cand rel hb p h5 hall]
    exact (validate_mint_accept p cand.outputsLen rel hb tid mbv qty h6 hpos).mpr hcond

/-- Claim C4 witness: the amended iff applied at a concrete single-baton
MINT, concluding acceptance. -/
theorem mintAcceptIffW :
    checkBurn c3cand (fun _ => some c3parent) (fun _ => some true)
      = Outcome.accepted :=
  (mintAcceptIff c3cand (fun _ => some c3parent) (fun _ => some true)
      [⟨21, 3, ⟨1, SlpData.mint 7 2 5⟩, 2⟩]
      [(⟨21, 3, ⟨1, SlpData.mint 7 2 5⟩, 2⟩, true)]
      [] true ⟨1, SlpData.mint 7 1 10⟩ 7 1 10
      rfl rfl rfl rfl rfl).mpr ⟨rfl, rfl, by decide, by decide, by decide⟩

end Insomnia

namespace Insomnia

/- ### Claim C6 -/

/-- A GENESIS candidate can only pass the identity check with an empty
relevant-input list: its own `slp.data.tokenId` is undefined (line 262 only
runs for parents) and can never equal an input's token id. -/
lemma genesis_identity_nil (p : SlpParsed) (rel : List RelevantInput)
    (mbv qty : Nat) (h6 : p.data = SlpData.genesis mbv qty)
    (hid : identityCheck p rel = none) : rel = [] := by
  cases rel with
  | nil => rfl
  | cons r0 rs =>
    exfalso
    simp only [identityCheck, List.head?, candTokenId, h6] at hid
    split_ifs at hid with g1 g2 <;> simp_all

/-- Acceptance condition of a parsed GENESIS candidate (lines 394-408): no
baton input, `mintBatonVout` zero or within the output count, and no
token-value-carrying input (the identity check rejects those); the final
conservation check of line 467 can then never fire. -/
lemma validate_genesis_accept (p : SlpParsed) (outLen : Nat)
    (rel : List RelevantInput) (hb : Bool) (mbv qty : Nat)
    (h6 : p.data = SlpData.genesis mbv qty)
    (hpos : ∀ r ∈ rel, 0 < r.slpValue) (hOut : 1 ≤ outLen) :
    (validateCandidate p outLen rel hb = Outcome.accepted ↔
      (hb = false ∧ (mbv = 0 ∨ mbv < outLen) ∧ totalInputValue rel = 0)) := by
  constructor
  · intro hacc
    have hid : identityCheck p rel = none :=
      validate_accept_imp_identity p outLen rel hb hacc
    have hnil : rel = [] := genesis_identity_nil p rel mbv qty h6 hid
    subst hnil
    simp only [validateCandidate, hid, typeChecks, h6, totalOutputValue] at hacc
    cases hb with
    | true => simp at hacc
    | false =>
      refine ⟨rfl, ?_, rfl⟩
      split_ifs at hacc with g1 <;> simp_all
  · rintro ⟨hbf, hdisj, h0⟩
    subst hbf
    have hnil : rel = [] := total_zero_imp_nil rel h0 hpos
    subst hnil
    have hid : identityCheck p [] = none := rfl
    simp only [validateCandidate, hid, typeChecks, h6, totalOutputValue,
      Bool.false_eq_true, if_false]
    have htot : totalInputValue ([] : List RelevantInput) = 0 := rfl
    rw [htot]
    rw [if_neg (by omega : ¬outLen ≤ mbv), if_neg (by omega : ¬qty < 0)]

/-- Parent transaction of the Claim C6 counterexample: a SEND of token 7
delivering value 5 on its output 1. -/
def c6parent : HydratedTx := ⟨50, 2, some (SlpResult.ok ⟨1, SlpData.send 7 [5]⟩)⟩

/-- GENESIS candidate of the Claim C6 counterexample: consumes the token
value of its input while creating a new token (one output, no baton). -/
def c6cand : Candidate := ⟨[⟨50, 1⟩], 1, some (SlpResult.ok ⟨1, SlpData.genesis 0 0⟩)⟩

/-- Claim C6 counterexample: a GENESIS candidate with no baton input
consumed and `mintBatonVout = 0` — by the claim it must be Accepted — but
`checkBurn` rejects it with the token-id mismatch, because it consumes a
positive-value token input that a genesis (having no token id yet) can
never match. -/
theorem genesisAcceptIffCex :
    computeContexts [(⟨50, 2, ⟨1, SlpData.send 7 [5]⟩, 1⟩, true)]
        = some ([⟨1, 7, 5⟩], false) ∧
      checkBurn c6cand (fun _ => some c6parent) (fun _ => some true)
        = Outcome.rejected Reason.tokenIdMismatch :=
  ⟨rfl, rfl⟩

/-- Claim C6 (amended): for a GENESIS candidate (at least one output, as any
SLP-parsed transaction has) over resolved, verdicted, crash-free inputs,
`checkBurn` accepts iff no baton input is consumed, `mintBatonVout = 0` or
within output bounds, AND no input carries positive relevant token value
(the token-identity check rejects any value-consuming genesis; the final
conservation check then indeed never fires for genesis). -/
theorem genesisAcceptIff (cand : Candidate) (fetch : TxId → Option HydratedTx)
    (g : TxId → Option Bool) (tagged : List TaggedTx)
    (lv : List (TaggedTx × Bool)) (rel : List RelevantInput) (hb : Bool)
    (p : SlpParsed) (mbv qty : Nat)
    (h1 : resolveInputs fetch cand.inputs = Except.ok tagged)
    (h2 : attachVerdicts g tagged = some lv)
    (h3 : computeContexts lv = some (rel, hb))
    (h5 : cand.slp = some (SlpResult.ok p))
    (h6 : p.data = SlpData.genesis mbv qty)
    (hOut : 1 ≤ cand.outputsLen) :
    (checkBurn cand fetch g = Outcome.accepted ↔
      (hb = false ∧ (mbv = 0 ∨ mbv < cand.outputsLen) ∧
        totalInputValue rel = 0)) := by
  rw [checkBurn_pipeline cand fetch g tagged lv rel hb h1 h2 h3]
  have hpos := computeContexts_pos lv rel hb h3
  constructor
  · intro hacc
    have hall : allSameTypes rel = true :=
      verdictOf_accept_imp_allSame cand rel hb hacc
    rw [verdictOf_parsed cand rel hb p h5 hall] at hacc
    exact (validate_genesis_accept p cand.outputsLen rel hb mbv qty h6 hpos hOut).mp hacc
  · intro hcond
    have hnil : rel = [] := total_zero_imp_nil rel hcond.2.2 hpos
    have hall : allSameTypes rel = true := by rw [hnil]; rfl
    rw [verdictOf_parsed cand rel hb p h5 hall]
    exact (validate_genesis_accept p cand.outputsLen rel hb mbv qty h6 hpos hOut).mpr hcond

/-- GENESIS candidate of the Claim C6 witness: funded by plain (non-token)
inputs only. -/
def c6wcand : Candidate := ⟨[], 1, some (SlpResult.ok ⟨1, SlpData.genesis 0 3⟩)⟩

/-- Claim C6 witness: the amended iff applied at a concrete value-free
GENESIS, concluding acceptance. -/
theorem genesisAcceptIffW :
    checkBurn c6wcand (fun _ => none) (fun _ => none) = Outcome.accepted :=
  (genesisAcceptIff c6wcand (fun _ => none) (fun _ => none) [] [] [] false
      ⟨1, SlpData.genesis 0 3⟩ 0 3 rfl rfl rfl rfl rfl (by decide)).mpr
    ⟨rfl, Or.inl rfl, rfl⟩

end Insomnia

namespace Insomnia

/- ### Claim C10 -/

/-- Spelled-out homogeneity: every positive-value relevant input matches the
first entry's token type and id. -/
lemma allSame_spec (rel : List RelevantInput) (r0 : RelevantInput)
    (hhead : rel.head? = some r0) (hall : allSameTypes rel = true)
    (v : RelevantInput) (hv : v ∈ rel) (hvpos : 0 < v.slpValue) :
    v.tokenType = r0.tokenType ∧ v.tokenId = r0.tokenId := by
  unfold allSameTypes at hall
  rw [hhead] at hall
  have hx := List.all_eq_true.mp hall v hv
  rw [if_neg (by omega)] at hx
  simpa using hx

/-- A passing identity check over a non-empty relevant-input list means the
candidate matches the first entry in both token type and token id. -/
lemma identity_none_spec (p : SlpParsed) (r0 : RelevantInput)
    (rs : List RelevantInput)
    (hid : identityCheck p (r0 :: rs) = none) :
    p.tokenType = r0.tokenType ∧ candTokenId p = some r0.tokenId := by
  simp only [identityCheck, List.head?] at hid
  by_cases g1 : p.tokenType = r0.tokenType
  · rw [if_neg (not_not.mpr g1)] at hid
    by_cases g2 : candTokenId p = some r0.tokenId
    · exact ⟨g1, g2⟩
    · rw [if_pos g2] at hid
      simp at hid
  · rw [if_pos g1] at hid
    simp at hid

/-- Claim C10: whenever at least one resolved input carries positive
relevant token value, `checkBurn` accepts only if the candidate's own
operation shares `tokenType` and `tokenId` with every such input; and a
mismatch in either against the (homogeneous) inputs is answered by the
dedicated identity rejection (lines 365-379), issued before any
conservation arithmetic on the outputs. -/
theorem tokenIdentityGate (cand : Candidate) (fetch : TxId → Option HydratedTx)
    (g : TxId → Option Bool) (tagged : List TaggedTx)
    (lv : List (TaggedTx × Bool)) (rel : List RelevantInput) (hb : Bool)
    (p : SlpParsed)
    (h1 : resolveInputs fetch cand.inputs = Except.ok tagged)
    (h2 : attachVerdicts g tagged = some lv)
    (h3 : computeContexts lv = some (rel, hb))
    (h5 : cand.slp = some (SlpResult.ok p)) :
    (checkBurn cand fetch g = Outcome.accepted →
      ∀ r ∈ rel, p.tokenType = r.tokenType ∧ candTokenId p = some r.tokenId) ∧
    (∀ r0, rel.head? = some r0 → allSameTypes rel = true →
      (p.tokenType ≠ r0.tokenType ∨ candTokenId p ≠ some r0.tokenId) →
      checkBurn cand fetch g = Outcome.rejected Reason.tokenTypeMismatch ∨
        checkBurn cand fetch g = Outcome.rejected Reason.tokenIdMismatch) := by
  rw [checkBurn_pipeline cand fetch g tagged lv rel hb h1 h2 h3]
  have hpos := computeContexts_pos lv rel hb h3
  constructor
  · intro hacc r hr
    have hall : allSameTypes rel = true :=
      verdictOf_accept_imp_allSame cand rel hb hacc
    rw [verdictOf_parsed cand rel hb p h5 hall] at hacc
    have hid : identityCheck p rel = none :=
      validate_accept_imp_identity p cand.outputsLen rel hb hacc
    cases rel with
    | nil => simp at hr
    | cons r0 rs =>
      have hm := identity_none_spec p r0 rs hid
      have hs := allSame_spec (r0 :: rs) r0 rfl hall r hr (hpos r hr)
      exact ⟨hm.1.trans hs.1.symm, by rw [hs.2]; exact hm.2⟩
  · intro r0 hhead hall hmis
    rw [verdictOf_parsed cand rel hb p h5 hall]
    by_cases ht : p.tokenType = r0.tokenType
    · have htid : candTokenId p ≠ some r0.tokenId := by
        rcases hmis with hmt | hmtid
        · exact absurd ht hmt
        · exact hmtid
      have hid : identityCheck p rel = some Reason.tokenIdMismatch := by
        simp only [identityCheck, hhead]
        rw [if_neg (not_not.mpr ht), if_pos htid]
      exact Or.inr
        (validate_identity_some p cand.outputsLen rel hb Reason.tokenIdMismatch hid)
    · have hid : identityCheck p rel = some Reason.tokenTypeMismatch := by
        simp only [identityCheck, hhead]
        rw [if_pos ht]
      exact Or.inl
        (validate_identity_some p cand.outputsLen rel hb Reason.tokenTypeMismatch hid)

/-- Parent transaction of the Claim C10 witness: a SEND of token 7. -/
def c10parent : HydratedTx := ⟨50, 2, some (SlpResult.ok ⟨1, SlpData.send 7 [5]⟩)⟩

/-- SEND candidate of the Claim C10 witness, claiming token 8 while
consuming token 7. -/
def c10cand : Candidate := ⟨[⟨50, 1⟩], 2, some (SlpResult.ok ⟨1, SlpData.send 8 [5]⟩)⟩

/-- Claim C10 witness: the identity gate applied at a concrete token-id
mismatch, concluding an identity rejection. -/
theorem tokenIdentityGateW :
    checkBurn c10cand (fun _ => some c10parent) (fun _ => some true)
        = Outcome.rejected Reason.tokenTypeMismatch ∨
      checkBurn c10cand (fun _ => some c10parent) (fun _ => some true)
        = Outcome.rejected Reason.tokenIdMismatch :=
  (tokenIdentityGate c10cand (fun _ => some c10parent) (fun _ => some true)
      [⟨50, 2, ⟨1, SlpData.send 7 [5]⟩, 1⟩]
      [(⟨50, 2, ⟨1, SlpData.send 7 [5]⟩, 1⟩, true)]
      [⟨1, 7, 5⟩] false ⟨1, SlpData.send 8 [5]⟩
      rfl rfl rfl rfl).2 ⟨1, 7, 5⟩ rfl rfl (Or.inr (by decide))

end Insomnia
